import Mathlib

/-!
# ArduinoAssess adaptive assessment engine — verification development

Shallow embedding of the adaptive question-selection engine
(`adaptive.ts`) and the hint-behavior analyzer (`hint-analysis.ts`).

Modelling conventions:
* JavaScript numbers are modelled as exact rationals (`ℚ`); the decimal
  literals of the source (0.3, 0.5, 0.8, 1.5, …) become the corresponding
  rationals.  `Math.max`/`Math.min` become `max`/`min` on `ℚ`, and
  `Math.round` becomes Mathlib's `round` (both round halves up).
* `DifficultyLevel` is 1|2|3|4|5 in the TypeScript types, but the source
  stores fractional bound values into `lowerBound`/`upperBound` through
  `as DifficultyLevel` casts, so bounds and difficulties are rationals here.
* Record fields irrelevant to control flow (answer text, keystrokes) are
  omitted; all fields read or written by the embedded functions are kept.
-/

/-- The five competency dimensions (`Dimension` union type); the source's
`hardwareIO` label is spelled `hardwareIo` here. -/
inductive Dimension
  | lowLevelBinary
  | controlFlow
  | hardwareIo
  | codeReading
  | decomposition
  deriving DecidableEq, Repr, Fintype

/-- Canonical dimension order (the `DIMENSIONS` constant). -/
def DIMENSIONS : List Dimension :=
  [.lowLevelBinary, .controlFlow, .hardwareIo, .codeReading, .decomposition]

/-- Position of a dimension in the canonical `DIMENSIONS` order. -/
def dimIndex : Dimension → ℕ
  | .lowLevelBinary => 0
  | .controlFlow => 1
  | .hardwareIo => 2
  | .codeReading => 3
  | .decomposition => 4

/-- `AssessmentPhase` union type. -/
inductive AssessmentPhase
  | exploration
  | refinement
  | completion
  deriving DecidableEq, Repr

/-- `DimensionState`: per-dimension bounds and counters. -/
structure DimensionState where
  lowerBound : ℚ
  upperBound : ℚ
  tested : Bool
  questionCount : ℕ
  correctCount : ℕ
  deriving DecidableEq, Repr

/-- `StudentProfile`: full per-learner state.  The `dimensions` record is a
total map from `Dimension` to `DimensionState`. -/
structure StudentProfile where
  sessionId : String
  studentName : Option String
  currentPhase : AssessmentPhase
  questionsAnswered : ℕ
  startTime : ℚ
  dimensions : Dimension → DimensionState
  totalTimeMs : ℚ
  hintsUsed : ℕ
  partialCredits : ℕ

/-- `QuestionResponse` (the per-turn answer outcome).  The `answer` and
`keystrokes` fields of the TypeScript interface are never read by the
embedded functions and are omitted. -/
structure QuestionResponse where
  questionId : String
  dimension : Dimension
  difficulty : ℚ
  correct : Bool
  /-- The source's `partial` field (renamed: `partial` is a Lean keyword). -/
  partialVerdict : Bool
  timeSpentMs : ℚ
  hintsUsed : ℕ
  timestamp : ℚ

/-- Question source tag (`'bank' | 'ai'`). -/
inductive QSource
  | bank
  | ai
  deriving DecidableEq, Repr

def CONVERGENCE_THRESHOLD : ℚ := 1/2

def MIN_QUESTIONS_PER_DIMENSION : ℕ := 3

def EXPLORATION_QUESTIONS_MIN : ℕ := 5

/-! ## BoundUpdater (`updateBounds`, adaptive.ts lines 97–188)

The source mutates `profile.dimensions[response.dimension]` through the
local alias `dimState` and finally returns the shallow copy
`{ ...profile }`.  The update is embedded as a pure per-state transformer
(`updateBoundsDimState`, split into the verdict rules of lines 113–168,
the clamp of lines 170–172 and the inversion resolution of lines
174–185, applied in the source's order), lifted to the profile. -/

/-- Verdict rules of `updateBounds` (lines 113–168), applied to the state
`s1` that already has `tested := true` and the incremented
`questionCount`.  `currentAccuracy` is the accuracy computed on line
104–107, i.e. before the counts were incremented. -/
def applyVerdictRules (s1 : DimensionState) (response : QuestionResponse)
    (currentAccuracy : ℚ) : DimensionState :=
  if response.correct then
    let sc := { s1 with correctCount := s1.correctCount + 1 }
    let newLowerBound := max sc.lowerBound (response.difficulty - 3/10)
    let sc := { sc with lowerBound := max 1 (min 5 newLowerBound) }
    if currentAccuracy > 3/5 then
      let newUpperBound := min 5 (response.difficulty + 3/2)
      { sc with upperBound := max sc.upperBound newUpperBound }
    else
      sc
  else if response.partialVerdict then
    let partialLevel := response.difficulty - 1/2
    let sp := { s1 with lowerBound := max s1.lowerBound (max 1 (partialLevel * (8/10))) }
    { sp with upperBound := min sp.upperBound (min 5 (response.difficulty + 1/2)) }
  else
    if currentAccuracy > 7/10 ∧ 3 ≤ s1.questionCount then
      let newUpper := max (s1.lowerBound + 3/10) (response.difficulty - 1/2)
      { s1 with upperBound := min s1.upperBound newUpper }
    else
      let newUpper := max s1.lowerBound (response.difficulty - 1/2)
      let sw := { s1 with upperBound := min s1.upperBound newUpper }
      if currentAccuracy < 4/10 then
        let newLowerBound := max 1 (response.difficulty - 3/2)
        { sw with lowerBound := min sw.lowerBound newLowerBound }
      else
        sw

/-- Clamp step of `updateBounds` (lines 170–172). -/
def clampBounds (s : DimensionState) : DimensionState :=
  { s with lowerBound := max 1 (min 5 s.lowerBound),
           upperBound := max 1 (min 5 s.upperBound) }

/-- Inversion resolution of `updateBounds` (lines 174–185). -/
def resolveInversion (s : DimensionState) (correct : Bool) : DimensionState :=
  if s.lowerBound > s.upperBound then
    let avg := (s.lowerBound + s.upperBound) / 2
    if correct then
      { s with upperBound := max s.lowerBound avg }
    else
      { s with lowerBound := min s.upperBound avg }
  else
    s

/-- The full per-state effect of `updateBounds` on the targeted
`DimensionState` (lines 101–185 in source order). -/
def updateBoundsDimState (dimState : DimensionState)
    (response : QuestionResponse) : DimensionState :=
  let currentAccuracy : ℚ :=
    if 0 < dimState.questionCount then
      (dimState.correctCount : ℚ) / (dimState.questionCount : ℚ)
    else 1/2
  let s1 := { dimState with tested := true, questionCount := dimState.questionCount + 1 }
  resolveInversion (clampBounds (applyVerdictRules s1 response currentAccuracy))
    response.correct

/-- `updateBounds` (lines 97–188): the value of the returned profile
`{ ...profile }`, whose shared `dimensions` record holds the updated
state for the targeted dimension. -/
def updateBounds (profile : StudentProfile) (response : QuestionResponse) :
    StudentProfile :=
  { profile with
      dimensions := fun d =>
        if d = response.dimension then
          updateBoundsDimState (profile.dimensions response.dimension) response
        else
          profile.dimensions d }

/-- Observable `dimensions` record of the *argument* profile after a call
to `updateBounds`.  In the source, `updateBounds` mutates
`profile.dimensions[response.dimension]` in place (`dimState.tested =
true; dimState.questionCount++; …`) and returns the shallow copy
`{ ...profile }`, which shares the same `dimensions` object — so after
the call the argument's dimension states coincide with those of the
returned profile. -/
def updateBoundsArgDimensionsAfter (profile : StudentProfile)
    (response : QuestionResponse) : Dimension → DimensionState :=
  (updateBounds profile response).dimensions

/-! ## PhaseClassifier, QuestionSelector, CompletionGate -/

/-- `determinePhase` (lines 193–225). -/
def determinePhase (profile : StudentProfile) : AssessmentPhase :=
  let questionsAnswered := profile.questionsAnswered
  if questionsAnswered < EXPLORATION_QUESTIONS_MIN then
    .exploration
  else
    let allDimensionsTested := DIMENSIONS.all fun dim => (profile.dimensions dim).tested
    if ¬ allDimensionsTested then
      .exploration
    else
      let allConverged := DIMENSIONS.all fun dim =>
        let state := profile.dimensions dim
        let range := state.upperBound - state.lowerBound
        decide (range ≤ CONVERGENCE_THRESHOLD ∧
          MIN_QUESTIONS_PER_DIMENSION ≤ state.questionCount)
      if allConverged then .completion else .refinement

/-- The adjusted uncertainty computed inside `findMostUncertainDimension`
(lines 236–239): bound range plus `1/(questionCount+1)`. -/
def adjustedUncertainty (profile : StudentProfile) (dim : Dimension) : ℚ :=
  let state := profile.dimensions dim
  (state.upperBound - state.lowerBound) + 1 / ((state.questionCount : ℚ) + 1)

/-- `findMostUncertainDimension` (lines 230–248): fold over `DIMENSIONS`
keeping the running maximum (started at 0) and its dimension (started at
`null`), replacing only on strict improvement. -/
def findMostUncertainDimension (profile : StudentProfile) : Option Dimension :=
  (DIMENSIONS.foldl
    (fun (acc : ℚ × Option Dimension) dim =>
      if adjustedUncertainty profile dim > acc.1 then
        (adjustedUncertainty profile dim, some dim)
      else acc)
    (0, none)).2

/-- `getQuestionTypeForDimension` (lines 253–275). -/
def getQuestionTypeForDimension (dimension : Dimension)
    (phase : AssessmentPhase) : String :=
  let types : List String :=
    match dimension with
    | .lowLevelBinary => ["oneLiner", "multipleChoice", "trace"]
    | .controlFlow => ["trace", "codeIDE", "multipleChoice"]
    | .hardwareIo => ["codeIDE", "multipleChoice", "trace"]
    | .codeReading => ["trace", "multipleChoice"]
    | .decomposition => ["codeIDE", "multipleChoice"]
  if phase = .exploration then
    if types.contains "multipleChoice" then "multipleChoice" else types.getD 0 ""
  else
    types.getD 0 ""

/-- `clampDifficulty` (lines 280–282): `Math.max(1, Math.min(5, Math.round(value)))`. -/
def clampDifficulty (value : ℚ) : ℚ :=
  max 1 (min 5 ((round value : ℤ) : ℚ))

/-- Return type of `selectNextQuestion`. -/
structure NextQuestion where
  dimension : Dimension
  targetDifficulty : ℚ
  source : QSource
  questionType : String
  deriving DecidableEq, Repr

/-- `selectNextQuestion` (lines 29–91).  The `questionBank` and
`aiGenerationCallback` parameters of the source are never read in the
function body and are omitted.  `rand` models the value of
`Math.floor(Math.random() * DIMENSIONS.length)` used only in the
all-converged fallback (line 82). -/
def selectNextQuestion (profile : StudentProfile) (rand : Fin 5) : NextQuestion :=
  let untestedDimensions := DIMENSIONS.filter fun dim => !(profile.dimensions dim).tested
  match untestedDimensions with
  | targetDim :: _ =>
    { dimension := targetDim
      targetDifficulty := 3
      source := .bank
      questionType := getQuestionTypeForDimension targetDim .exploration }
  | [] =>
    match findMostUncertainDimension profile with
    | some mostUncertain =>
      let dimState := profile.dimensions mostUncertain
      let targetDifficulty : ℚ :=
        ((round ((dimState.lowerBound + dimState.upperBound) / 2) : ℤ) : ℚ)
      let range := dimState.upperBound - dimState.lowerBound
      if range ≤ 2 ∨ 3 ≤ dimState.questionCount then
        { dimension := mostUncertain
          targetDifficulty := clampDifficulty targetDifficulty
          source := .ai
          questionType := getQuestionTypeForDimension mostUncertain .refinement }
      else
        { dimension := mostUncertain
          targetDifficulty := clampDifficulty targetDifficulty
          source := .bank
          questionType := getQuestionTypeForDimension mostUncertain .refinement }
    | none =>
      let randomDim := DIMENSIONS.getD rand.val .lowLevelBinary
      let dimState := profile.dimensions randomDim
      { dimension := randomDim
        targetDifficulty := clampDifficulty dimState.lowerBound
        source := .bank
        questionType := getQuestionTypeForDimension randomDim .completion }

/-- `createStudentProfile` (lines 287–316); `now` stands for the
`Date.now()` call on line 304. -/
def createStudentProfile (sessionId : String) (studentName : Option String)
    (now : ℚ) : StudentProfile :=
  let initialDimState : DimensionState :=
    { lowerBound := 1, upperBound := 5, tested := false
      questionCount := 0, correctCount := 0 }
  { sessionId := sessionId
    studentName := studentName
    currentPhase := .exploration
    questionsAnswered := 0
    startTime := now
    totalTimeMs := 0
    hintsUsed := 0
    partialCredits := 0
    dimensions := fun _ => initialDimState }

/-- `shouldCompleteAssessment` (lines 321–348). -/
def shouldCompleteAssessment (profile : StudentProfile) : Bool :=
  if 25 ≤ profile.questionsAnswered then
    true
  else if profile.currentPhase = .completion then
    true
  else
    let allConverged := DIMENSIONS.all fun dim =>
      let state := profile.dimensions dim
      let range := state.upperBound - state.lowerBound
      decide (range ≤ CONVERGENCE_THRESHOLD)
    let minQuestionsReached :=
      EXPLORATION_QUESTIONS_MIN + DIMENSIONS.length * MIN_QUESTIONS_PER_DIMENSION ≤
        profile.questionsAnswered
    allConverged && decide minQuestionsReached

/-- `calculateConfidence` (lines 354–375). -/
def calculateConfidence (dimState : DimensionState) : ℚ :=
  let range := dimState.upperBound - dimState.lowerBound
  let rangeConfidence := 1 - range / 4
  let questionConfidence := min ((dimState.questionCount : ℚ) / 6) 1
  let accuracy : ℚ :=
    if 0 < dimState.questionCount then
      (dimState.correctCount : ℚ) / (dimState.questionCount : ℚ)
    else 1/2
  let accuracyConfidence := accuracy
  rangeConfidence * (5/10) + questionConfidence * (3/10) + accuracyConfidence * (2/10)

/-- One orchestrator turn for an answered question, from the
`POST /answer` handler in `assessment.ts`: `updateBounds`, then the
session-counter increments (`questionsAnswered++`,
`totalTimeMs += timeSpentMs`, `hintsUsed += hintsUsed`,
`partialCredits++` on a partial verdict), then
`currentPhase := determinePhase(updatedProfile)`. -/
def orchestratorTurn (profile : StudentProfile) (response : QuestionResponse) :
    StudentProfile :=
  let updatedProfile := updateBounds profile response
  let updatedProfile :=
    { updatedProfile with
        questionsAnswered := updatedProfile.questionsAnswered + 1
        totalTimeMs := updatedProfile.totalTimeMs + response.timeSpentMs
        hintsUsed := updatedProfile.hintsUsed + response.hintsUsed
        partialCredits :=
          if response.partialVerdict then updatedProfile.partialCredits + 1
          else updatedProfile.partialCredits }
  { updatedProfile with currentPhase := determinePhase updatedProfile }

/-! ## BehaviorAnalyzer (`hint-analysis.ts`)

JavaScript plain objects used as maps (`Record<string, …>`) are modelled
as association lists in key-insertion order, matching `Object.entries`
iteration order. -/

/-- `HintEvent.hintType` (hint-analysis.ts line 7).  The `example`
constructor is renamed (`example` is a Lean keyword). -/
inductive HintType
  | conceptual
  | syntactical
  | structural
  | exampleHint
  | elimination
  deriving DecidableEq, Repr

/-- The string value of a hint type, as it appears as an object key. -/
def hintTypeName : HintType → String
  | .conceptual => "conceptual"
  | .syntactical => "syntactical"
  | .structural => "structural"
  | .exampleHint => "example"
  | .elimination => "elimination"

/-- `HintEvent.subsequentAction` values (line 9). -/
inductive SubsequentAction
  | answered_correctly
  | answered_wrong
  | asked_another_hint
  | still_working
  deriving DecidableEq, Repr

/-- `HintEvent` (hint-analysis.ts lines 4–11). -/
structure HintEvent where
  id : String
  questionId : String
  hintType : HintType
  timeIntoQuestionMs : ℚ
  subsequentAction : Option SubsequentAction
  timeAfterHintMs : Option ℚ

/-- `HintProfile.helpSeekingStyle` values (line 14). -/
inductive HelpSeekingStyle
  | quick_to_ask
  | reluctant
  | balanced
  deriving DecidableEq, Repr

/-- `HintProfile.preferredLearningMode` values (line 16). -/
inductive PreferredLearningMode
  | pattern_matching
  | theory_first
  | needs_scaffolding
  | syntax_focused
  deriving DecidableEq, Repr

/-- `HintProfile` (hint-analysis.ts lines 13–21).  The two `Record`
fields are association lists in insertion order. -/
structure HintProfile where
  helpSeekingStyle : HelpSeekingStyle
  mostEffectiveHintType : String
  preferredLearningMode : PreferredLearningMode
  hintEffectiveness : ℚ
  totalHintsUsed : ℕ
  avgTimeToAskHint : ℚ
  hintTypeDistribution : List (String × ℕ)
  deriving DecidableEq, Repr

/-- Update the entry for key `k` in an insertion-ordered association
list with `f`, appending `f init` when the key is absent (models
`obj[k] = f(obj[k] ?? init)` on a JS object). -/
def updateEntry (l : List (String × ℕ × ℕ)) (k : String)
    (f : ℕ × ℕ → ℕ × ℕ) (init : ℕ × ℕ) : List (String × ℕ × ℕ) :=
  match l with
  | [] => [(k, f init)]
  | (k', v) :: rest =>
    if k' = k then (k', f v) :: rest else (k', v) :: updateEntry rest k f init

/-- Like `updateEntry` for a counter-valued object
(`obj[k] = (obj[k] || 0) + 1`). -/
def bumpEntry (l : List (String × ℕ)) (k : String) : List (String × ℕ) :=
  match l with
  | [] => [(k, 1)]
  | (k', v) :: rest =>
    if k' = k then (k', v + 1) :: rest else (k', v) :: bumpEntry rest k

/-- `analyzeHintBehavior` (hint-analysis.ts lines 26–102).  The
`sort(descending by count)[0]` on line 80–81 is modelled as the first
entry with maximal count in insertion order, which is what a stable
descending sort followed by `[0]` returns. -/
def analyzeHintBehavior (events : List HintEvent) : HintProfile :=
  if events.length = 0 then
    { helpSeekingStyle := .balanced
      mostEffectiveHintType := "none"
      preferredLearningMode := .theory_first
      hintEffectiveness := 0
      totalHintsUsed := 0
      avgTimeToAskHint := 0
      hintTypeDistribution := [] }
  else
    let avgTimeToAskMs :=
      (events.map (fun e => e.timeIntoQuestionMs)).sum / (events.length : ℚ)
    let avgTimeToAskSec := avgTimeToAskMs / 1000
    let helpSeekingStyle : HelpSeekingStyle :=
      if avgTimeToAskSec < 30 then .quick_to_ask
      else if avgTimeToAskSec > 120 then .reluctant
      else .balanced
    let hintTypeSuccess : List (String × ℕ × ℕ) :=
      events.foldl
        (fun acc e =>
          updateEntry acc (hintTypeName e.hintType)
            (fun s =>
              (s.1 + (if e.subsequentAction = some .answered_correctly then 1 else 0),
               s.2 + 1))
            (0, 0))
        []
    let best :=
      hintTypeSuccess.foldl
        (fun (best : String × ℚ) entry =>
          let successRate : ℚ :=
            if 0 < entry.2.2 then (entry.2.1 : ℚ) / (entry.2.2 : ℚ) else 0
          if successRate > best.2 then (entry.1, successRate) else best)
        ("none", 0)
    let mostEffectiveType := best.1
    let hintTypeDistribution : List (String × ℕ) :=
      events.foldl (fun acc e => bumpEntry acc (hintTypeName e.hintType)) []
    let mostUsedType :=
      (hintTypeDistribution.foldl
        (fun (best : Option (String × ℕ)) entry =>
          match best with
          | none => some entry
          | some b => if entry.2 > b.2 then some entry else some b)
        none).map Prod.fst |>.getD "conceptual"
    let preferredLearningMode : PreferredLearningMode :=
      if mostUsedType = "example" then .pattern_matching
      else if mostUsedType = "conceptual" then .theory_first
      else if mostUsedType = "structural" then .needs_scaffolding
      else .syntax_focused
    let answeredAfterHint :=
      (events.filter (fun e => e.subsequentAction = some .answered_correctly)).length
    let hintEffectiveness : ℚ :=
      if 0 < events.length then (answeredAfterHint : ℚ) / (events.length : ℚ) else 0
    { helpSeekingStyle := helpSeekingStyle
      mostEffectiveHintType := mostEffectiveType
      preferredLearningMode := preferredLearningMode
      hintEffectiveness := hintEffectiveness
      totalHintsUsed := events.length
      avgTimeToAskHint := avgTimeToAskSec
      hintTypeDistribution := hintTypeDistribution }

/-! ## Helper lemmas -/

lemma adjustedUncertainty_pos (p : StudentProfile) (d : Dimension)
    (h : (p.dimensions d).lowerBound ≤ (p.dimensions d).upperBound) :
    0 < adjustedUncertainty p d := by
  unfold adjustedUncertainty
  dsimp only
  have hq : (0 : ℚ) < ((p.dimensions d).questionCount : ℚ) + 1 := by positivity
  have : (0 : ℚ) < 1 / (((p.dimensions d).questionCount : ℚ) + 1) := by positivity
  linarith

lemma findMostUncertain_pos_spec (p : StudentProfile)
    (hpos : ∀ d, 0 < adjustedUncertainty p d) :
    ∃ m, findMostUncertainDimension p = some m ∧
      (∀ d, adjustedUncertainty p d ≤ adjustedUncertainty p m) ∧
      (∀ d, dimIndex d < dimIndex m → adjustedUncertainty p d < adjustedUncertainty p m) := by
  have h1 := hpos .lowLevelBinary
  unfold findMostUncertainDimension DIMENSIONS
  simp only [List.foldl]
  split_ifs <;>
    dsimp only <;>
    (try simp only [not_lt] at *) <;>
    refine ⟨_, rfl, fun d => ?_, fun d hd => ?_⟩ <;>
    cases d <;>
    (try simp only [dimIndex] at *) <;>
    first
      | omega
      | linarith

lemma resolveInversion_invariant (s : DimensionState) (c : Bool)
    (hl1 : 1 ≤ s.lowerBound) (hl5 : s.lowerBound ≤ 5)
    (hu1 : 1 ≤ s.upperBound) (hu5 : s.upperBound ≤ 5) :
    1 ≤ (resolveInversion s c).lowerBound ∧
      (resolveInversion s c).lowerBound ≤ (resolveInversion s c).upperBound ∧
      (resolveInversion s c).upperBound ≤ 5 := by
  unfold resolveInversion
  dsimp only
  split_ifs with hgt hc
  · exact ⟨hl1, le_max_left _ _, max_le hl5 (by linarith)⟩
  · exact ⟨le_min hu1 (by linarith), min_le_left _ _, hu5⟩
  · exact ⟨hl1, not_lt.mp hgt, hu5⟩

lemma clampBounds_lowerBound (s : DimensionState) :
    (clampBounds s).lowerBound = max 1 (min 5 s.lowerBound) := rfl

lemma clampBounds_upperBound (s : DimensionState) :
    (clampBounds s).upperBound = max 1 (min 5 s.upperBound) := rfl

lemma clamp_scale_mem (x : ℚ) : 1 ≤ max 1 (min 5 x) ∧ max 1 (min 5 x) ≤ 5 :=
  ⟨le_max_left _ _, max_le (by norm_num) (min_le_left _ _)⟩

lemma updateBoundsDimState_invariant (s : DimensionState) (r : QuestionResponse) :
    1 ≤ (updateBoundsDimState s r).lowerBound ∧
      (updateBoundsDimState s r).lowerBound ≤ (updateBoundsDimState s r).upperBound ∧
      (updateBoundsDimState s r).upperBound ≤ 5 := by
  unfold updateBoundsDimState
  dsimp only
  apply resolveInversion_invariant
  · exact (clamp_scale_mem _).1
  · exact (clamp_scale_mem _).2
  · exact (clamp_scale_mem _).1
  · exact (clamp_scale_mem _).2

lemma updateBounds_target (p : StudentProfile) (r : QuestionResponse) :
    (updateBounds p r).dimensions r.dimension =
      updateBoundsDimState (p.dimensions r.dimension) r := by
  simp [updateBounds]

lemma updateBounds_other (p : StudentProfile) (r : QuestionResponse)
    (d : Dimension) (h : d ≠ r.dimension) :
    (updateBounds p r).dimensions d = p.dimensions d := by
  simp [updateBounds, h]

lemma applyVerdictRules_correct_lowerBound (s1 : DimensionState)
    (r : QuestionResponse) (acc : ℚ) (hc : r.correct = true) :
    (applyVerdictRules s1 r acc).lowerBound =
      max 1 (min 5 (max s1.lowerBound (r.difficulty - 3/10))) := by
  unfold applyVerdictRules
  simp only [hc, if_true]
  split_ifs <;> rfl

lemma resolveInversion_true_lowerBound (s : DimensionState) :
    (resolveInversion s true).lowerBound = s.lowerBound := by
  unfold resolveInversion
  split_ifs with h h2 <;> first | rfl | exact absurd rfl h2

lemma updateBoundsDimState_correct_lowerBound (s : DimensionState)
    (r : QuestionResponse) (hc : r.correct = true) :
    (updateBoundsDimState s r).lowerBound =
      max 1 (min 5 (max 1 (min 5 (max s.lowerBound (r.difficulty - 3/10))))) := by
  unfold updateBoundsDimState
  dsimp only
  rw [hc, resolveInversion_true_lowerBound, clampBounds_lowerBound,
    applyVerdictRules_correct_lowerBound _ _ _ hc]

lemma applyVerdictRules_partial (s1 : DimensionState) (r : QuestionResponse)
    (acc : ℚ) (hc : r.correct = false) (hp : r.partialVerdict = true) :
    applyVerdictRules s1 r acc =
      { s1 with
          lowerBound := max s1.lowerBound (max 1 ((r.difficulty - 1/2) * (8/10))),
          upperBound := min s1.upperBound (min 5 (r.difficulty + 1/2)) } := by
  unfold applyVerdictRules
  simp only [hc, hp, Bool.false_eq_true, if_false, if_true]

lemma resolveInversion_false_upperBound (s : DimensionState) :
    (resolveInversion s false).upperBound = s.upperBound := by
  unfold resolveInversion
  split_ifs with h h2 <;> first | rfl | exact absurd h2 (by simp)

lemma resolveInversion_noop (s : DimensionState) (c : Bool)
    (h : s.lowerBound ≤ s.upperBound) : resolveInversion s c = s := by
  unfold resolveInversion
  rw [if_neg (not_lt.mpr h)]

lemma clampBounds_eq_self (s : DimensionState)
    (h1 : 1 ≤ s.lowerBound) (h2 : s.lowerBound ≤ 5)
    (h3 : 1 ≤ s.upperBound) (h4 : s.upperBound ≤ 5) : clampBounds s = s := by
  unfold clampBounds
  rw [min_eq_right h2, max_eq_right h1, min_eq_right h4, max_eq_right h3]

lemma updateBoundsDimState_partial_bounds (s : DimensionState) (r : QuestionResponse)
    (hc : r.correct = false) (hp : r.partialVerdict = true)
    (h1 : 1 ≤ s.lowerBound) (hLU : s.lowerBound ≤ s.upperBound)
    (hU5 : s.upperBound ≤ 5)
    (hd1 : 1 ≤ r.difficulty) (hd5 : r.difficulty ≤ 5) :
    (updateBoundsDimState s r).upperBound ≤ s.upperBound ∧
      (s.lowerBound ≤ r.difficulty + 1/2 →
        (r.difficulty - 1/2) * (8/10) ≤ s.upperBound →
        s.lowerBound ≤ (updateBoundsDimState s r).lowerBound) := by
  have key : updateBoundsDimState s r =
      resolveInversion
        (clampBounds
          { lowerBound := max s.lowerBound (max 1 ((r.difficulty - 1/2) * (8/10))),
            upperBound := min s.upperBound (min 5 (r.difficulty + 1/2)),
            tested := true, questionCount := s.questionCount + 1,
            correctCount := s.correctCount }) false := by
    unfold updateBoundsDimState
    dsimp only
    rw [hc, applyVerdictRules_partial _ _ _ hc hp]
  obtain ⟨t, ht, htL, htU⟩ :
      ∃ t, updateBoundsDimState s r = resolveInversion t false ∧
        t.lowerBound =
          max 1 (min 5 (max s.lowerBound (max 1 ((r.difficulty - 1/2) * (8/10))))) ∧
        t.upperBound =
          max 1 (min 5 (min s.upperBound (min 5 (r.difficulty + 1/2)))) :=
    ⟨_, key, rfl, rfl⟩
  have hL5 : s.lowerBound ≤ 5 := le_trans hLU hU5
  have hA1 : (1:ℚ) ≤ max s.lowerBound (max 1 ((r.difficulty - 1/2) * (8/10))) :=
    le_trans h1 (le_max_left _ _)
  have hA5 : max s.lowerBound (max 1 ((r.difficulty - 1/2) * (8/10))) ≤ 5 :=
    max_le hL5 (max_le (by norm_num) (by linarith))
  have hB1 : (1:ℚ) ≤ min s.upperBound (min 5 (r.difficulty + 1/2)) :=
    le_min (le_trans h1 hLU) (le_min (by norm_num) (by linarith))
  have hB5 : min s.upperBound (min 5 (r.difficulty + 1/2)) ≤ 5 :=
    le_trans (min_le_right _ _) (min_le_left _ _)
  have htL' : t.lowerBound =
      max s.lowerBound (max 1 ((r.difficulty - 1/2) * (8/10))) := by
    rw [htL, min_eq_right hA5, max_eq_right hA1]
  have htU' : t.upperBound = min s.upperBound (min 5 (r.difficulty + 1/2)) := by
    rw [htU, min_eq_right hB5, max_eq_right hB1]
  rw [ht]
  constructor
  · rw [resolveInversion_false_upperBound, htU']
    exact min_le_left _ _
  · intro hcond1 hcond2
    have hLeq : t.lowerBound ≤ t.upperBound := by
      rw [htL', htU']
      exact max_le (le_min hLU (le_min hL5 hcond1))
        (max_le hB1 (le_min hcond2 (le_min (by linarith) (by linarith))))
    rw [resolveInversion_noop _ _ hLeq, htL']
    exact le_max_left _ _

lemma foldl_turn_questionsAnswered :
    ∀ (rs : List QuestionResponse) (p : StudentProfile),
      (rs.foldl orchestratorTurn p).questionsAnswered =
        p.questionsAnswered + rs.length := by
  intro rs
  induction rs with
  | nil => intro p; simp
  | cons r rs ih =>
    intro p
    rw [List.foldl_cons, ih]
    show (orchestratorTurn p r).questionsAnswered + rs.length = _
    have h : (orchestratorTurn p r).questionsAnswered = p.questionsAnswered + 1 := rfl
    rw [h, List.length_cons]
    omega

lemma all_DIMENSIONS_iff (f : Dimension → Bool) :
    (DIMENSIONS.all f = true) ↔ ∀ d, f d = true := by
  constructor
  · intro h d
    have hmem : d ∈ DIMENSIONS := by cases d <;> simp [DIMENSIONS]
    exact List.all_eq_true.mp h d hmem
  · intro h
    exact List.all_eq_true.mpr fun d _ => h d

lemma converged_all_iff (p : StudentProfile) :
    (DIMENSIONS.all fun dim =>
      decide ((p.dimensions dim).upperBound - (p.dimensions dim).lowerBound ≤
          CONVERGENCE_THRESHOLD ∧
        MIN_QUESTIONS_PER_DIMENSION ≤ (p.dimensions dim).questionCount)) = true ↔
    ∀ d, (p.dimensions d).upperBound - (p.dimensions d).lowerBound ≤ 1/2 ∧
      3 ≤ (p.dimensions d).questionCount := by
  rw [all_DIMENSIONS_iff]
  constructor
  · intro h d
    exact of_decide_eq_true (h d)
  · intro h d
    exact decide_eq_true (h d)

lemma filter_untested_nil (p : StudentProfile)
    (hall : ∀ d, (p.dimensions d).tested = true) :
    (DIMENSIONS.filter fun dim => !(p.dimensions dim).tested) = [] := by
  simp [DIMENSIONS, hall]

lemma untested_filter_head (p : StudentProfile) (d0 : Dimension)
    (h0 : (p.dimensions d0).tested = false)
    (hbefore : ∀ d, dimIndex d < dimIndex d0 → (p.dimensions d).tested = true) :
    ∃ rest, (DIMENSIONS.filter fun dim => !(p.dimensions dim).tested) = d0 :: rest := by
  cases d0 with
  | lowLevelBinary =>
    refine ⟨List.filter (fun dim => !(p.dimensions dim).tested)
      [.controlFlow, .hardwareIo, .codeReading, .decomposition], ?_⟩
    rw [DIMENSIONS, List.filter_cons_of_pos (by simp [h0])]
  | controlFlow =>
    have t0 := hbefore .lowLevelBinary (by decide)
    refine ⟨List.filter (fun dim => !(p.dimensions dim).tested)
      [.hardwareIo, .codeReading, .decomposition], ?_⟩
    rw [DIMENSIONS, List.filter_cons_of_neg (by simp [t0]),
      List.filter_cons_of_pos (by simp [h0])]
  | hardwareIo =>
    have t0 := hbefore .lowLevelBinary (by decide)
    have t1 := hbefore .controlFlow (by decide)
    refine ⟨List.filter (fun dim => !(p.dimensions dim).tested)
      [.codeReading, .decomposition], ?_⟩
    rw [DIMENSIONS, List.filter_cons_of_neg (by simp [t0]),
      List.filter_cons_of_neg (by simp [t1]),
      List.filter_cons_of_pos (by simp [h0])]
  | codeReading =>
    have t0 := hbefore .lowLevelBinary (by decide)
    have t1 := hbefore .controlFlow (by decide)
    have t2 := hbefore .hardwareIo (by decide)
    refine ⟨List.filter (fun dim => !(p.dimensions dim).tested) [.decomposition], ?_⟩
    rw [DIMENSIONS, List.filter_cons_of_neg (by simp [t0]),
      List.filter_cons_of_neg (by simp [t1]),
      List.filter_cons_of_neg (by simp [t2]),
      List.filter_cons_of_pos (by simp [h0])]
  | decomposition =>
    have t0 := hbefore .lowLevelBinary (by decide)
    have t1 := hbefore .controlFlow (by decide)
    have t2 := hbefore .hardwareIo (by decide)
    have t3 := hbefore .codeReading (by decide)
    refine ⟨List.filter (fun dim => !(p.dimensions dim).tested) [], ?_⟩
    rw [DIMENSIONS, List.filter_cons_of_neg (by simp [t0]),
      List.filter_cons_of_neg (by simp [t1]),
      List.filter_cons_of_neg (by simp [t2]),
      List.filter_cons_of_neg (by simp [t3]),
      List.filter_cons_of_pos (by simp [h0])]

lemma selectNextQuestion_untested (p : StudentProfile) (rand : Fin 5)
    (d0 : Dimension) (rest : List Dimension)
    (hfilter : (DIMENSIONS.filter fun dim => !(p.dimensions dim).tested) = d0 :: rest) :
    selectNextQuestion p rand =
      { dimension := d0, targetDifficulty := 3, source := .bank,
        questionType := getQuestionTypeForDimension d0 .exploration } := by
  unfold selectNextQuestion
  rw [hfilter]

lemma selectNextQuestion_refinement (p : StudentProfile) (rand : Fin 5)
    (m : Dimension)
    (hall : ∀ d, (p.dimensions d).tested = true)
    (hm : findMostUncertainDimension p = some m) :
    selectNextQuestion p rand =
      (if (p.dimensions m).upperBound - (p.dimensions m).lowerBound ≤ 2 ∨
          3 ≤ (p.dimensions m).questionCount then
        { dimension := m,
          targetDifficulty := clampDifficulty
            ((round (((p.dimensions m).lowerBound + (p.dimensions m).upperBound) / 2) : ℤ) : ℚ),
          source := QSource.ai,
          questionType := getQuestionTypeForDimension m .refinement }
      else
        { dimension := m,
          targetDifficulty := clampDifficulty
            ((round (((p.dimensions m).lowerBound + (p.dimensions m).upperBound) / 2) : ℤ) : ℚ),
          source := QSource.bank,
          questionType := getQuestionTypeForDimension m .refinement }) := by
  unfold selectNextQuestion
  rw [filter_untested_nil p hall, hm]

/-! ## Concrete inputs used by witnesses and counterexamples -/

/-- Fresh profile for Scenario A (all bounds `[1,5]`, counts 0). -/
def scenarioAProfile : StudentProfile := createStudentProfile "sessionA" none 0

/-- Correct answer at difficulty 3 on `lowLevelBinary` (Scenario A). -/
def scenarioAResponse : QuestionResponse :=
  { questionId := "qA", dimension := .lowLevelBinary, difficulty := 3,
    correct := true, partialVerdict := false, timeSpentMs := 1000,
    hintsUsed := 0, timestamp := 0 }

/-- Narrow dimension state `[2,2]` used by the C5 counterexample. -/
def c5State : DimensionState :=
  { lowerBound := 2, upperBound := 2, tested := true,
    questionCount := 1, correctCount := 0 }

/-- Profile whose every dimension is `c5State`. -/
def c5Profile : StudentProfile :=
  { sessionId := "s5", studentName := none, currentPhase := .refinement,
    questionsAnswered := 6, startTime := 0, dimensions := fun _ => c5State,
    totalTimeMs := 0, hintsUsed := 0, partialCredits := 0 }

/-- Partial-credit answer at difficulty 1 (C5 counterexample). -/
def c5Response : QuestionResponse :=
  { questionId := "q5", dimension := .lowLevelBinary, difficulty := 1,
    correct := false, partialVerdict := true, timeSpentMs := 0,
    hintsUsed := 0, timestamp := 0 }

/-- `questionCount = 1, correctCount = 1` (C4 counterexample, before). -/
def c4StateBefore : DimensionState :=
  { lowerBound := 1, upperBound := 5, tested := true,
    questionCount := 1, correctCount := 1 }

/-- Same bounds and `correctCount`, `questionCount = 2` (C4, after). -/
def c4StateAfter : DimensionState :=
  { lowerBound := 1, upperBound := 5, tested := true,
    questionCount := 2, correctCount := 1 }

/-- All-dimensions-tested profile used by C6/C7/C10 witnesses. -/
def testedProfile : StudentProfile :=
  { sessionId := "s10", studentName := none, currentPhase := .refinement,
    questionsAnswered := 6, startTime := 0,
    dimensions := fun _ =>
      { lowerBound := 1, upperBound := 5, tested := true,
        questionCount := 1, correctCount := 1 },
    totalTimeMs := 0, hintsUsed := 0, partialCredits := 0 }

/-! ## Claims -/

/-- C1: for every Profile whose targeted DimensionState satisfies
`1 ≤ lowerBound ≤ upperBound ≤ 5` and every outcome with any verdict and
any difficulty in `[1,5]`, the targeted DimensionState of the Profile
returned by `updateBounds` again satisfies
`1 ≤ lowerBound ≤ upperBound ≤ 5`. -/
theorem updateBounds_scale_invariant
    (p : StudentProfile) (r : QuestionResponse)
    (h1 : 1 ≤ (p.dimensions r.dimension).lowerBound)
    (h2 : (p.dimensions r.dimension).lowerBound ≤ (p.dimensions r.dimension).upperBound)
    (h3 : (p.dimensions r.dimension).upperBound ≤ 5)
    (hd1 : 1 ≤ r.difficulty) (hd5 : r.difficulty ≤ 5) :
    1 ≤ ((updateBounds p r).dimensions r.dimension).lowerBound ∧
      ((updateBounds p r).dimensions r.dimension).lowerBound ≤
        ((updateBounds p r).dimensions r.dimension).upperBound ∧
      ((updateBounds p r).dimensions r.dimension).upperBound ≤ 5 := by
  rw [updateBounds_target]
  exact updateBoundsDimState_invariant _ _

/-- Witness for C1 at the fresh profile and a correct answer at difficulty 3. -/
theorem updateBounds_scale_invariant_witness :
    (1 ≤ (scenarioAProfile.dimensions scenarioAResponse.dimension).lowerBound ∧
     (scenarioAProfile.dimensions scenarioAResponse.dimension).lowerBound ≤
       (scenarioAProfile.dimensions scenarioAResponse.dimension).upperBound ∧
     (scenarioAProfile.dimensions scenarioAResponse.dimension).upperBound ≤ 5 ∧
     1 ≤ scenarioAResponse.difficulty ∧ scenarioAResponse.difficulty ≤ 5) ∧
    (1 ≤ ((updateBounds scenarioAProfile scenarioAResponse).dimensions
        scenarioAResponse.dimension).lowerBound ∧
      ((updateBounds scenarioAProfile scenarioAResponse).dimensions
        scenarioAResponse.dimension).lowerBound ≤
        ((updateBounds scenarioAProfile scenarioAResponse).dimensions
          scenarioAResponse.dimension).upperBound ∧
      ((updateBounds scenarioAProfile scenarioAResponse).dimensions
        scenarioAResponse.dimension).upperBound ≤ 5) :=
  ⟨⟨by norm_num [scenarioAProfile, createStudentProfile, scenarioAResponse],
    by norm_num [scenarioAProfile, createStudentProfile, scenarioAResponse],
    by norm_num [scenarioAProfile, createStudentProfile, scenarioAResponse],
    by norm_num [scenarioAResponse], by norm_num [scenarioAResponse]⟩,
   updateBounds_scale_invariant scenarioAProfile scenarioAResponse
     (by norm_num [scenarioAProfile, createStudentProfile, scenarioAResponse])
     (by norm_num [scenarioAProfile, createStudentProfile, scenarioAResponse])
     (by norm_num [scenarioAProfile, createStudentProfile, scenarioAResponse])
     (by norm_num [scenarioAResponse]) (by norm_num [scenarioAResponse])⟩

/-- C2: a correct answer at difficulty `d` with `L ≤ d ≤ 5` yields a new
`lowerBound ≥ min(U, d − 0.3)`; in particular on a fresh Profile a correct
answer at difficulty 3 yields `lowerBound ≥ 2.7`, `tested = true` and
`questionCount = 1` for that dimension (Scenario A). -/
theorem updateBounds_correct_raises_lowerBound :
    (∀ (p : StudentProfile) (r : QuestionResponse),
      r.correct = true →
      1 ≤ (p.dimensions r.dimension).lowerBound →
      (p.dimensions r.dimension).lowerBound ≤ (p.dimensions r.dimension).upperBound →
      (p.dimensions r.dimension).upperBound ≤ 5 →
      (p.dimensions r.dimension).lowerBound ≤ r.difficulty →
      r.difficulty ≤ 5 →
      min (p.dimensions r.dimension).upperBound (r.difficulty - 3/10) ≤
        ((updateBounds p r).dimensions r.dimension).lowerBound) ∧
    (27/10 ≤ ((updateBounds scenarioAProfile scenarioAResponse).dimensions
        Dimension.lowLevelBinary).lowerBound ∧
      ((updateBounds scenarioAProfile scenarioAResponse).dimensions
        Dimension.lowLevelBinary).tested = true ∧
      ((updateBounds scenarioAProfile scenarioAResponse).dimensions
        Dimension.lowLevelBinary).questionCount = 1) := by
  constructor
  · intro p r hc h1 h2 h3 hLd hd5
    rw [updateBounds_target, updateBoundsDimState_correct_lowerBound _ _ hc]
    have hY1 : (1 : ℚ) ≤ max (p.dimensions r.dimension).lowerBound (r.difficulty - 3/10) :=
      le_trans h1 (le_max_left _ _)
    have hY5 : max (p.dimensions r.dimension).lowerBound (r.difficulty - 3/10) ≤ 5 :=
      max_le (by linarith) (by linarith)
    rw [min_eq_right hY5, max_eq_right hY1, min_eq_right hY5, max_eq_right hY1]
    exact le_trans (min_le_right _ _) (le_max_right _ _)
  · refine ⟨?_, ?_, ?_⟩ <;>
      norm_num [updateBounds, updateBoundsDimState, applyVerdictRules, clampBounds,
        resolveInversion, scenarioAProfile, scenarioAResponse, createStudentProfile,
        max_def, min_def]

/-- Witness for C2's universally quantified part at Scenario A's inputs. -/
theorem updateBounds_correct_raises_lowerBound_witness :
    (scenarioAResponse.correct = true ∧
     1 ≤ (scenarioAProfile.dimensions scenarioAResponse.dimension).lowerBound ∧
     (scenarioAProfile.dimensions scenarioAResponse.dimension).lowerBound ≤
       (scenarioAProfile.dimensions scenarioAResponse.dimension).upperBound ∧
     (scenarioAProfile.dimensions scenarioAResponse.dimension).upperBound ≤ 5 ∧
     (scenarioAProfile.dimensions scenarioAResponse.dimension).lowerBound ≤
       scenarioAResponse.difficulty ∧
     scenarioAResponse.difficulty ≤ 5) ∧
    min (scenarioAProfile.dimensions scenarioAResponse.dimension).upperBound
        (scenarioAResponse.difficulty - 3/10) ≤
      ((updateBounds scenarioAProfile scenarioAResponse).dimensions
        scenarioAResponse.dimension).lowerBound :=
  ⟨⟨rfl,
    by norm_num [scenarioAProfile, createStudentProfile, scenarioAResponse],
    by norm_num [scenarioAProfile, createStudentProfile, scenarioAResponse],
    by norm_num [scenarioAProfile, createStudentProfile, scenarioAResponse],
    by norm_num [scenarioAProfile, createStudentProfile, scenarioAResponse],
    by norm_num [scenarioAResponse]⟩,
   updateBounds_correct_raises_lowerBound.1 scenarioAProfile scenarioAResponse rfl
     (by norm_num [scenarioAProfile, createStudentProfile, scenarioAResponse])
     (by norm_num [scenarioAProfile, createStudentProfile, scenarioAResponse])
     (by norm_num [scenarioAProfile, createStudentProfile, scenarioAResponse])
     (by norm_num [scenarioAProfile, createStudentProfile, scenarioAResponse])
     (by norm_num [scenarioAResponse])⟩

/-- C3: `shouldCompleteAssessment` returns true for every Profile with
`questionsAnswered ≥ 25`, regardless of phase, bounds and counts; and
since each orchestrator turn increments `questionsAnswered` by one, any
outcome sequence reaching 25 total answers makes the gate return true. -/
theorem completion_hard_cap :
    (∀ p : StudentProfile, 25 ≤ p.questionsAnswered →
      shouldCompleteAssessment p = true) ∧
    (∀ (p0 : StudentProfile) (rs : List QuestionResponse),
      25 ≤ p0.questionsAnswered + rs.length →
      shouldCompleteAssessment (rs.foldl orchestratorTurn p0) = true) := by
  have base : ∀ p : StudentProfile, 25 ≤ p.questionsAnswered →
      shouldCompleteAssessment p = true := by
    intro p h
    unfold shouldCompleteAssessment
    rw [if_pos h]
  exact ⟨base, fun p0 rs h =>
    base _ (by rw [foldl_turn_questionsAnswered]; exact h)⟩

/-- Witness for C3: 25 turns from a fresh profile trigger the gate. -/
theorem completion_hard_cap_witness :
    (25 ≤ scenarioAProfile.questionsAnswered +
      (List.replicate 25 scenarioAResponse).length) ∧
    shouldCompleteAssessment
      ((List.replicate 25 scenarioAResponse).foldl orchestratorTurn
        scenarioAProfile) = true :=
  ⟨by simp [scenarioAProfile, createStudentProfile],
   completion_hard_cap.2 scenarioAProfile (List.replicate 25 scenarioAResponse)
     (by simp [scenarioAProfile, createStudentProfile])⟩

/-- C4 counterexample: holding bounds `[1,5]` and `correctCount = 1`
fixed, raising `questionCount` from 1 to 2 *lowers* `calculateConfidence`
(from 1/4 to 1/5): the accuracy term `correctCount/questionCount` shrinks
faster than the question-count term grows.  This falsifies the claim that
confidence is non-decreasing in `questionCount` with `correctCount` held
fixed. -/
theorem calculateConfidence_not_monotone_cex :
    c4StateBefore.lowerBound = c4StateAfter.lowerBound ∧
    c4StateBefore.upperBound = c4StateAfter.upperBound ∧
    c4StateBefore.correctCount = c4StateAfter.correctCount ∧
    c4StateBefore.questionCount ≤ c4StateAfter.questionCount ∧
    calculateConfidence c4StateAfter < calculateConfidence c4StateBefore := by
  refine ⟨rfl, rfl, rfl, by norm_num [c4StateBefore, c4StateAfter], ?_⟩
  norm_num [calculateConfidence, c4StateBefore, c4StateAfter, max_def, min_def]

/-- C4 amended: `calculateConfidence` is non-decreasing in
`questionCount` holding the bounds and the *observed accuracy*
(`correctCount/questionCount`) fixed, for `questionCount ≥ 1`.  (Holding
`correctCount` itself fixed it can decrease, as the counterexample
shows, because the accuracy component of the weighted sum shrinks.) -/
theorem calculateConfidence_monotone_fixed_accuracy
    (s1 s2 : DimensionState)
    (hlb : s1.lowerBound = s2.lowerBound) (hub : s1.upperBound = s2.upperBound)
    (h1 : 1 ≤ s1.questionCount) (h12 : s1.questionCount ≤ s2.questionCount)
    (hacc : (s1.correctCount : ℚ) / (s1.questionCount : ℚ) =
      (s2.correctCount : ℚ) / (s2.questionCount : ℚ)) :
    calculateConfidence s1 ≤ calculateConfidence s2 := by
  unfold calculateConfidence
  dsimp only
  rw [if_pos (by omega : 0 < s1.questionCount),
    if_pos (by omega : 0 < s2.questionCount), hlb, hub, hacc]
  have hmin : min ((s1.questionCount : ℚ) / 6) 1 ≤
      min ((s2.questionCount : ℚ) / 6) 1 := by
    apply min_le_min _ le_rfl
    have h : (s1.questionCount : ℚ) ≤ (s2.questionCount : ℚ) := by exact_mod_cast h12
    linarith
  linarith

/-- Witness for amended C4 at accuracy 1, question counts 1 and 2. -/
theorem calculateConfidence_monotone_fixed_accuracy_witness :
    (c4StateBefore.lowerBound = c4StateAfter.lowerBound ∧
     c4StateBefore.upperBound = c4StateAfter.upperBound ∧
     1 ≤ c4StateBefore.questionCount ∧
     c4StateBefore.questionCount ≤ c4StateAfter.questionCount ∧
     (c4StateBefore.correctCount : ℚ) / (c4StateBefore.questionCount : ℚ) =
       ((c4StateAfter.correctCount + 1 : ℕ) : ℚ) / (c4StateAfter.questionCount : ℚ)) ∧
    calculateConfidence c4StateBefore ≤
      calculateConfidence { c4StateAfter with correctCount := c4StateAfter.correctCount + 1 } :=
  ⟨⟨rfl, rfl, by norm_num [c4StateBefore],
    by norm_num [c4StateBefore, c4StateAfter],
    by norm_num [c4StateBefore, c4StateAfter]⟩,
   calculateConfidence_monotone_fixed_accuracy c4StateBefore
     { c4StateAfter with correctCount := c4StateAfter.correctCount + 1 }
     rfl rfl (by norm_num [c4StateBefore])
     (by norm_num [c4StateBefore, c4StateAfter])
     (by norm_num [c4StateBefore, c4StateAfter])⟩

/-- C5 counterexample: with bounds `[2,2]` and a partial-credit answer at
difficulty 1 (all claim preconditions hold), `updateBounds` *lowers* the
lower bound from 2 to 3/2: the partial rule tightens `upperBound` to 3/2,
and the inversion-resolution step then drags `lowerBound` down to it.
This falsifies the claim that a partial verdict never widens either
bound. -/
theorem updateBounds_partial_widens_cex :
    c5Response.correct = false ∧ c5Response.partialVerdict = true ∧
    1 ≤ c5State.lowerBound ∧ c5State.lowerBound ≤ c5State.upperBound ∧
    c5State.upperBound ≤ 5 ∧ 1 ≤ c5Response.difficulty ∧
    c5Response.difficulty ≤ 5 ∧
    ((updateBounds c5Profile c5Response).dimensions Dimension.lowLevelBinary).lowerBound <
      (c5Profile.dimensions Dimension.lowLevelBinary).lowerBound := by
  norm_num [updateBounds, updateBoundsDimState, applyVerdictRules, clampBounds,
    resolveInversion, c5Profile, c5State, c5Response, max_def, min_def]

/-- C5 amended: on a partial verdict (bounds in `[1,5]`, difficulty in
`[1,5]`) the resulting `upperBound` never exceeds the previous one; and
the resulting `lowerBound` is ≥ the previous one provided the
partial-credit targets do not cross the existing bounds
(`lowerBound ≤ difficulty + 0.5` and `(difficulty − 0.5)·0.8 ≤
upperBound`); when they cross, the inversion-resolution step lowers
`lowerBound` to the tightened `upperBound`. -/
theorem updateBounds_partial_tightens
    (p : StudentProfile) (r : QuestionResponse)
    (hc : r.correct = false) (hp : r.partialVerdict = true)
    (h1 : 1 ≤ (p.dimensions r.dimension).lowerBound)
    (hLU : (p.dimensions r.dimension).lowerBound ≤ (p.dimensions r.dimension).upperBound)
    (hU5 : (p.dimensions r.dimension).upperBound ≤ 5)
    (hd1 : 1 ≤ r.difficulty) (hd5 : r.difficulty ≤ 5) :
    ((updateBounds p r).dimensions r.dimension).upperBound ≤
        (p.dimensions r.dimension).upperBound ∧
      ((p.dimensions r.dimension).lowerBound ≤ r.difficulty + 1/2 →
        (r.difficulty - 1/2) * (8/10) ≤ (p.dimensions r.dimension).upperBound →
        (p.dimensions r.dimension).lowerBound ≤
          ((updateBounds p r).dimensions r.dimension).lowerBound) := by
  rw [updateBounds_target]
  exact updateBoundsDimState_partial_bounds _ _ hc hp h1 hLU hU5 hd1 hd5

/-- Witness for amended C5: partial at difficulty 3 on the fresh bounds. -/
theorem updateBounds_partial_tightens_witness :
    (c5Response.correct = false ∧ c5Response.partialVerdict = true ∧
     1 ≤ (c5Profile.dimensions c5Response.dimension).lowerBound ∧
     (c5Profile.dimensions c5Response.dimension).lowerBound ≤
       (c5Profile.dimensions c5Response.dimension).upperBound ∧
     (c5Profile.dimensions c5Response.dimension).upperBound ≤ 5 ∧
     1 ≤ c5Response.difficulty ∧ c5Response.difficulty ≤ 5) ∧
    ((updateBounds c5Profile c5Response).dimensions c5Response.dimension).upperBound ≤
      (c5Profile.dimensions c5Response.dimension).upperBound :=
  ⟨⟨rfl, rfl, by norm_num [c5Profile, c5State],
    by norm_num [c5Profile, c5State], by norm_num [c5Profile, c5State],
    by norm_num [c5Response], by norm_num [c5Response]⟩,
   (updateBounds_partial_tightens c5Profile c5Response rfl rfl
     (by norm_num [c5Profile, c5State]) (by norm_num [c5Profile, c5State])
     (by norm_num [c5Profile, c5State]) (by norm_num [c5Response])
     (by norm_num [c5Response])).1⟩

/-- C6: `determinePhase` returns exploration iff fewer than 5 questions
are answered or some dimension is untested; once 5+ questions are
answered and all five dimensions are tested, it returns completion iff
every dimension has range ≤ 0.5 and at least 3 questions, and refinement
otherwise. -/
theorem determinePhase_spec (p : StudentProfile) :
    (determinePhase p = .exploration ↔
      (p.questionsAnswered < 5 ∨ ∃ d, (p.dimensions d).tested = false))
    ∧ (5 ≤ p.questionsAnswered → (∀ d, (p.dimensions d).tested = true) →
        ((determinePhase p = .completion ↔
           ∀ d, (p.dimensions d).upperBound - (p.dimensions d).lowerBound ≤ 1/2 ∧
             3 ≤ (p.dimensions d).questionCount)
         ∧ (determinePhase p = .refinement ↔
           ¬ ∀ d, (p.dimensions d).upperBound - (p.dimensions d).lowerBound ≤ 1/2 ∧
             3 ≤ (p.dimensions d).questionCount))) := by
  have htest := all_DIMENSIONS_iff (fun dim => (p.dimensions dim).tested)
  have hconv := converged_all_iff p
  have h5iff : ∀ m : ℕ, m < EXPLORATION_QUESTIONS_MIN ↔ m < 5 := fun m => Iff.rfl
  unfold determinePhase
  dsimp only
  split_ifs with h1 h2 h3
  · exact ⟨iff_of_true rfl (Or.inl ((h5iff _).mp h1)),
      fun h5 _ => absurd ((h5iff _).mp h1) (by omega)⟩
  · have hnor : ¬ (p.questionsAnswered < 5 ∨ ∃ d, (p.dimensions d).tested = false) := by
      rintro (h | ⟨d, hd⟩)
      · exact h1 ((h5iff _).mpr h)
      · have := htest.mp h2 d
        rw [hd] at this
        exact Bool.false_ne_true this
    refine ⟨iff_of_false (by decide) hnor, fun h5 hall => ?_⟩
    exact ⟨iff_of_true rfl (hconv.mp h3),
      iff_of_false (by decide) (not_not.mpr (hconv.mp h3))⟩
  · have hnor : ¬ (p.questionsAnswered < 5 ∨ ∃ d, (p.dimensions d).tested = false) := by
      rintro (h | ⟨d, hd⟩)
      · exact h1 ((h5iff _).mpr h)
      · have := htest.mp h2 d
        rw [hd] at this
        exact Bool.false_ne_true this
    refine ⟨iff_of_false (by decide) hnor, fun h5 hall => ?_⟩
    exact ⟨iff_of_false (by decide) (fun hc => h3 (hconv.mpr hc)),
      iff_of_true rfl (fun hc => h3 (hconv.mpr hc))⟩
  · have huntested : ∃ d, (p.dimensions d).tested = false := by
      by_contra hall
      push_neg at hall
      exact h2 (htest.mpr fun d => by
        cases hbd : (p.dimensions d).tested with
        | true => rfl
        | false => exact absurd hbd (hall d))
    exact ⟨iff_of_true rfl (Or.inr huntested),
      fun h5 hall => absurd (htest.mpr hall) h2⟩

/-- Witness for C6's conditional part at an all-tested profile with 6
questions answered. -/
theorem determinePhase_spec_witness :
    (5 ≤ testedProfile.questionsAnswered ∧
     (∀ d, (testedProfile.dimensions d).tested = true)) ∧
    (determinePhase testedProfile = .completion ↔
      ∀ d, (testedProfile.dimensions d).upperBound -
          (testedProfile.dimensions d).lowerBound ≤ 1/2 ∧
        3 ≤ (testedProfile.dimensions d).questionCount) :=
  ⟨⟨by norm_num [testedProfile], fun d => rfl⟩,
   ((determinePhase_spec testedProfile).2 (by norm_num [testedProfile])
     (fun d => rfl)).1⟩

/-- C7: with an untested dimension present, `selectNextQuestion` picks
the first untested dimension in canonical order at difficulty 3 from the
bank; otherwise it picks the dimension with the greatest adjusted
uncertainty `(upperBound − lowerBound) + 1/(questionCount+1)` (earliest
in canonical order on ties), targets the clamped rounded midpoint of its
bounds, and uses the AI source iff that dimension's range ≤ 2 or its
`questionCount ≥ 3`. -/
theorem selectNextQuestion_spec (p : StudentProfile) (rand : Fin 5) :
    (∀ d0 : Dimension,
      (p.dimensions d0).tested = false →
      (∀ d, dimIndex d < dimIndex d0 → (p.dimensions d).tested = true) →
      selectNextQuestion p rand =
        { dimension := d0, targetDifficulty := 3, source := .bank,
          questionType := getQuestionTypeForDimension d0 .exploration })
    ∧ ((∀ d, (p.dimensions d).tested = true) →
        (∀ d, (p.dimensions d).lowerBound ≤ (p.dimensions d).upperBound) →
        ∃ m : Dimension,
          (∀ d, adjustedUncertainty p d ≤ adjustedUncertainty p m) ∧
          (∀ d, dimIndex d < dimIndex m →
            adjustedUncertainty p d < adjustedUncertainty p m) ∧
          (selectNextQuestion p rand).dimension = m ∧
          (selectNextQuestion p rand).targetDifficulty =
            max 1 (min 5 ((round (((p.dimensions m).lowerBound +
              (p.dimensions m).upperBound) / 2) : ℤ) : ℚ)) ∧
          ((selectNextQuestion p rand).source = QSource.ai ↔
            ((p.dimensions m).upperBound - (p.dimensions m).lowerBound ≤ 2 ∨
              3 ≤ (p.dimensions m).questionCount))) := by
  constructor
  · intro d0 h0 hb
    obtain ⟨rest, hf⟩ := untested_filter_head p d0 h0 hb
    exact selectNextQuestion_untested p rand d0 rest hf
  · intro hall hinv
    obtain ⟨m, hm, hmax, htie⟩ :=
      findMostUncertain_pos_spec p fun d => adjustedUncertainty_pos p d (hinv d)
    have hsel := selectNextQuestion_refinement p rand m hall hm
    refine ⟨m, hmax, htie, ?_, ?_, ?_⟩ <;> rw [hsel] <;> split_ifs with h
    · rfl
    · rfl
    · show clampDifficulty _ = _
      rw [clampDifficulty, round_intCast]
    · show clampDifficulty _ = _
      rw [clampDifficulty, round_intCast]
    · exact iff_of_true rfl h
    · exact iff_of_false (by decide) h

/-- Witness for C7's exploration part on the fresh (all-untested)
profile. -/
theorem selectNextQuestion_spec_witness :
    ((scenarioAProfile.dimensions Dimension.lowLevelBinary).tested = false ∧
     (∀ d, dimIndex d < dimIndex Dimension.lowLevelBinary →
       (scenarioAProfile.dimensions d).tested = true)) ∧
    selectNextQuestion scenarioAProfile 0 =
      { dimension := Dimension.lowLevelBinary, targetDifficulty := 3,
        source := .bank,
        questionType := getQuestionTypeForDimension Dimension.lowLevelBinary
          .exploration } :=
  ⟨⟨rfl, by decide⟩,
   (selectNextQuestion_spec scenarioAProfile 0).1 Dimension.lowLevelBinary rfl
     (by decide)⟩

/-- C8 counterexample: after `updateBounds`, the *argument* profile's
targeted DimensionState does not hold its original values — in the
source the update mutates `profile.dimensions[response.dimension]` in
place (the returned `{ ...profile }` is a shallow copy sharing the same
`dimensions` record).  Here the fresh profile's `lowLevelBinary` state
has `tested` flipped to true in the argument after the call. -/
theorem updateBounds_mutates_argument_cex :
    updateBoundsArgDimensionsAfter scenarioAProfile scenarioAResponse
        Dimension.lowLevelBinary ≠
      scenarioAProfile.dimensions Dimension.lowLevelBinary := by
  intro h
  have ht := congrArg DimensionState.tested h
  norm_num [updateBoundsArgDimensionsAfter, updateBounds, updateBoundsDimState,
    applyVerdictRules, clampBounds, resolveInversion, scenarioAProfile,
    scenarioAResponse, createStudentProfile, max_def, min_def] at ht

/-- C8 amended: `updateBounds` mutates the targeted DimensionState in
place, so after the call the argument's dimension states coincide with
the returned Profile's (not with their original values); it is
frame-correct otherwise: every non-targeted DimensionState and every
session field of the Profile is unchanged. -/
theorem updateBounds_frame (p : StudentProfile) (r : QuestionResponse) :
    updateBoundsArgDimensionsAfter p r = (updateBounds p r).dimensions ∧
    (∀ d, d ≠ r.dimension → (updateBounds p r).dimensions d = p.dimensions d) ∧
    (updateBounds p r).sessionId = p.sessionId ∧
    (updateBounds p r).currentPhase = p.currentPhase ∧
    (updateBounds p r).questionsAnswered = p.questionsAnswered ∧
    (updateBounds p r).totalTimeMs = p.totalTimeMs ∧
    (updateBounds p r).hintsUsed = p.hintsUsed ∧
    (updateBounds p r).partialCredits = p.partialCredits :=
  ⟨rfl, fun d hd => updateBounds_other p r d hd, rfl, rfl, rfl, rfl, rfl, rfl⟩

/-- Witness for amended C8 at a non-targeted dimension. -/
theorem updateBounds_frame_witness :
    Dimension.controlFlow ≠ scenarioAResponse.dimension ∧
    (updateBounds scenarioAProfile scenarioAResponse).dimensions
        Dimension.controlFlow =
      scenarioAProfile.dimensions Dimension.controlFlow :=
  ⟨by decide,
   (updateBounds_frame scenarioAProfile scenarioAResponse).2.1
     Dimension.controlFlow (by decide)⟩

/-- C9: `analyzeHintBehavior` on the empty hint-event list returns
exactly the documented defaults (the function returns them directly from
its early guard, so no division or aggregation is performed). -/
theorem analyzeHintBehavior_empty_defaults :
    (analyzeHintBehavior []).helpSeekingStyle = .balanced ∧
    (analyzeHintBehavior []).mostEffectiveHintType = "none" ∧
    (analyzeHintBehavior []).hintEffectiveness = 0 ∧
    (analyzeHintBehavior []).totalHintsUsed = 0 ∧
    (analyzeHintBehavior []).avgTimeToAskHint = 0 ∧
    (analyzeHintBehavior []).hintTypeDistribution = [] :=
  ⟨rfl, rfl, rfl, rfl, rfl, rfl⟩

/-- C10: for every Profile whose dimension states satisfy
`lowerBound ≤ upperBound`, `findMostUncertainDimension` never returns
`none` (every adjusted uncertainty is strictly positive, so the first
dimension already beats the initial maximum 0); consequently, once all
five dimensions are tested, `selectNextQuestion` answers from the
refinement branch and its random all-converged fallback is unreachable —
the result does not depend on the random draw. -/
theorem findMostUncertainDimension_never_none (p : StudentProfile)
    (hinv : ∀ d, (p.dimensions d).lowerBound ≤ (p.dimensions d).upperBound) :
    findMostUncertainDimension p ≠ none ∧
    ((∀ d, (p.dimensions d).tested = true) →
      ∀ r1 r2 : Fin 5, selectNextQuestion p r1 = selectNextQuestion p r2) := by
  obtain ⟨m, hm, -, -⟩ :=
    findMostUncertain_pos_spec p fun d => adjustedUncertainty_pos p d (hinv d)
  refine ⟨by rw [hm]; simp, fun hall r1 r2 => ?_⟩
  rw [selectNextQuestion_refinement p r1 m hall hm,
    selectNextQuestion_refinement p r2 m hall hm]

/-- Witness for C10 at an all-tested profile, with two distinct draws. -/
theorem findMostUncertainDimension_never_none_witness :
    ((∀ d, (testedProfile.dimensions d).lowerBound ≤
        (testedProfile.dimensions d).upperBound) ∧
     (∀ d, (testedProfile.dimensions d).tested = true)) ∧
    (findMostUncertainDimension testedProfile ≠ none ∧
      selectNextQuestion testedProfile 0 = selectNextQuestion testedProfile 3) :=
  ⟨⟨fun d => by norm_num [testedProfile], fun d => rfl⟩,
   (findMostUncertainDimension_never_none testedProfile
      (fun d => by norm_num [testedProfile])).1,
   (findMostUncertainDimension_never_none testedProfile
      (fun d => by norm_num [testedProfile])).2 (fun d => rfl) 0 3⟩
